import Mathlib

/-!
Shallow embedding of the DBMan browser-side widgets (datatable, form-modify,
modal wrappers, datajson sub-record builder) and proofs about the behaviour
their specification describes.  Cell texts and DOM strings are modelled as
`String` or `List Char`; JS objects as association lists; fetch responses as
explicit oracles; observable side effects as returned values or traces.
-/

namespace DBMan

/-! ## CSV field escaping (datatable export, `escapeCSVField`) -/

/-- Test of the regular expression `("|,|\n)` used by `escapeCSVField`:
true when the character is a double quote, a comma, or a newline. -/
def csvSpecialChar (c : Char) : Bool :=
  c = '"' || c = ',' || c = '\n'

/-- Test corresponding to `field.search(/("|,|\n)/g) !== -1`. -/
def csvNeedsQuote (l : List Char) : Bool :=
  l.any csvSpecialChar

/-- Embedding of `field.replace(/"/g, '""')`: double every double quote. -/
def csvDoubleQuotes : List Char → List Char
  | [] => []
  | c :: t =>
    if c = '"' then '"' :: '"' :: csvDoubleQuotes t
    else c :: csvDoubleQuotes t

/-- Embedding of `escapeCSVField` from the datatable CSV export: `none`
stands for a null or undefined field, `some l` for the string with
characters `l`. -/
def escapeCSVField : Option (List Char) → List Char
  | none => []
  | some l =>
    if csvNeedsQuote l then '"' :: (csvDoubleQuotes l ++ ['"'])
    else l

/-- RFC 4180 un-doubling of interior quotes, the inverse direction of
`csvDoubleQuotes`. -/
def csvUnDouble : List Char → List Char
  | [] => []
  | [c] => [c]
  | c1 :: c2 :: t =>
    if c1 = '"' ∧ c2 = '"' then '"' :: csvUnDouble t
    else c1 :: csvUnDouble (c2 :: t)

/-- Standard CSV (RFC 4180) unquoting of one emitted field: a field wrapped
in double quotes has the wrapper stripped and interior doubled quotes
collapsed; any other field is taken verbatim. -/
def csvUnquote (l : List Char) : List Char :=
  match l with
  | [] => []
  | c :: rest =>
    if c = '"' ∧ rest ≠ [] ∧ rest.getLast? = some '"' then
      csvUnDouble rest.dropLast
    else l

theorem csvUnDouble_cons_of_ne (c : Char) (rest : List Char) (hc : c ≠ '"') :
    csvUnDouble (c :: rest) = c :: csvUnDouble rest := by
  cases rest with
  | nil => simp [csvUnDouble]
  | cons d t => simp [csvUnDouble, hc]

theorem csvUnDouble_csvDoubleQuotes (l : List Char) :
    csvUnDouble (csvDoubleQuotes l) = l := by
  induction l with
  | nil => simp [csvDoubleQuotes, csvUnDouble]
  | cons c t ih =>
    by_cases hc : c = '"'
    · subst hc
      simp [csvDoubleQuotes, csvUnDouble, ih]
    · simp only [csvDoubleQuotes, if_neg hc]
      rw [csvUnDouble_cons_of_ne c _ hc, ih]

theorem csvUnquote_of_no_special (l : List Char) (h : csvNeedsQuote l = false) :
    csvUnquote l = l := by
  cases l with
  | nil => rfl
  | cons c rest =>
    have hc : c ≠ '"' := by
      intro hc
      subst hc
      simp [csvNeedsQuote, csvSpecialChar] at h
    simp [csvUnquote, hc]

theorem csvUnquote_escape (l : List Char) :
    csvUnquote (escapeCSVField (some l)) = l := by
  by_cases h : csvNeedsQuote l = true
  · simp only [escapeCSVField, if_pos h, csvUnquote]
    rw [if_pos]
    · rw [List.dropLast_concat, csvUnDouble_csvDoubleQuotes]
    · exact ⟨by trivial, by simp, List.getLast?_concat _⟩
  · have h' : csvNeedsQuote l = false := by
      simpa using h
    have hgoal := csvUnquote_of_no_special l h'
    simpa [escapeCSVField, h'] using hgoal

/-- C10: the CSV field escaper of the datatable export maps a null or
undefined field to the empty string, returns a string free of double
quotes, commas and newlines unchanged, wraps any other string in double
quotes with every interior double quote doubled, and every emitted field
recovers the original cell text under standard CSV (RFC 4180)
unquoting. -/
theorem c10_csv_escaper_correct (l : List Char) :
    escapeCSVField none = []
    ∧ (csvNeedsQuote l = false → escapeCSVField (some l) = l)
    ∧ (csvNeedsQuote l = true →
        escapeCSVField (some l) = '"' :: (csvDoubleQuotes l ++ ['"']))
    ∧ csvUnquote (escapeCSVField (some l)) = l := by
  refine ⟨rfl, ?_, ?_, csvUnquote_escape l⟩
  · intro h
    simp [escapeCSVField, h]
  · intro h
    simp [escapeCSVField, h]

/-- Witness for C10 at the concrete cell text `a"b`, which needs quoting. -/
theorem c10_csv_escaper_correct_witness :
    csvNeedsQuote ['a', '"', 'b'] = true
    ∧ escapeCSVField (some ['a', '"', 'b'])
        = '"' :: (csvDoubleQuotes ['a', '"', 'b'] ++ ['"'])
    ∧ csvUnquote (escapeCSVField (some ['a', '"', 'b'])) = ['a', '"', 'b'] :=
  ⟨by decide,
   (c10_csv_escaper_correct ['a', '"', 'b']).2.2.1 (by decide),
   (c10_csv_escaper_correct ['a', '"', 'b']).2.2.2⟩

/-! ## Alert modal button visibility (`ModalAlertMJ.update`) -/

/-- Names of the three valid alert-modal buttons, the keys of
`this.validBtns` built in `ModalAlertMJ._initProperties`. -/
def validBtnNames : List String := ["acknowledge", "confirm", "cancel"]

/-- Embedding of the `buttonTypes.forEach` loop of `ModalAlertMJ.update`:
`valid` is the mutable copy of the valid names array, `hidden` maps each
button name to whether its class list carries `d-none`.  A requested name
found in `valid` has its button shown (`d-none` removed) and is spliced
out of `valid`; other names are ignored. -/
def updBtnLoop : List String → List String → (String → Bool) →
    List String × (String → Bool)
  | [], valid, hidden => (valid, hidden)
  | b :: bs, valid, hidden =>
    if b ∈ valid then
      updBtnLoop bs (valid.erase b) (fun n => if n = b then false else hidden n)
    else
      updBtnLoop bs valid hidden

/-- Button-visibility pass of `ModalAlertMJ.update`: show every valid
button named in `buttonTypes`, then add `d-none` to each remaining valid
button. -/
def updateButtons (buttonTypes : List String) (hidden : String → Bool) :
    String → Bool :=
  let res := updBtnLoop buttonTypes validBtnNames hidden
  fun n => if n ∈ res.1 then true else res.2 n

theorem updBtnLoop_not_mem (bts : List String) (valid : List String)
    (h : String → Bool) (n : String) (hn : n ∉ valid) :
    n ∉ (updBtnLoop bts valid h).1 ∧ (updBtnLoop bts valid h).2 n = h n := by
  induction bts generalizing valid h with
  | nil => exact ⟨hn, rfl⟩
  | cons b bs ih =>
    by_cases hb : b ∈ valid
    · have hbn : n ≠ b := fun he => hn (he ▸ hb)
      have hn' : n ∉ valid.erase b := fun hm => hn (List.mem_of_mem_erase hm)
      simp only [updBtnLoop, if_pos hb]
      have := ih (valid.erase b) (fun m => if m = b then false else h m) hn'
      refine ⟨this.1, ?_⟩
      rw [this.2]
      simp [hbn]
    · simp only [updBtnLoop, if_neg hb]
      exact ih valid h hn

theorem updBtnLoop_mem (bts : List String) (valid : List String)
    (h : String → Bool) (n : String) (hn : n ∈ valid) (hd : valid.Nodup) :
    (if n ∈ (updBtnLoop bts valid h).1 then true else (updBtnLoop bts valid h).2 n)
      = !(decide (n ∈ bts)) := by
  induction bts generalizing valid h with
  | nil => simp [updBtnLoop, hn]
  | cons b bs ih =>
    by_cases hb : b ∈ valid
    · simp only [updBtnLoop, if_pos hb]
      by_cases hbn : b = n
      · subst hbn
        have hne : b ∉ valid.erase b := hd.not_mem_erase
        have hres := updBtnLoop_not_mem bs (valid.erase b)
          (fun m => if m = b then false else h m) b hne
        rw [if_neg hres.1, hres.2]
        simp
      · have hn' : n ∈ valid.erase b :=
          (List.mem_erase_of_ne (fun he => hbn he.symm)).mpr hn
        rw [ih (valid.erase b) _ hn' (hd.erase b)]
        simp [Ne.symm hbn]
    · simp only [updBtnLoop, if_neg hb]
      have hbn : b ≠ n := fun he => hb (he ▸ hn)
      rw [ih valid h hn hd]
      simp [Ne.symm hbn]

/-- C4: after the button pass of `ModalAlertMJ.update` with a
`buttonTypes` list, each of the acknowledge/confirm/cancel buttons lacks
class `d-none` exactly when its name occurs in `buttonTypes` (so every
valid button not named there carries `d-none`), whatever the previous
visibility was. -/
theorem c4_update_button_visibility (buttonTypes : List String)
    (hidden : String → Bool) (n : String) (hn : n ∈ validBtnNames) :
    updateButtons buttonTypes hidden n = false ↔ n ∈ buttonTypes := by
  have hd : validBtnNames.Nodup := by decide
  have := updBtnLoop_mem buttonTypes validBtnNames hidden n hn hd
  unfold updateButtons
  rw [this]
  by_cases hmem : n ∈ buttonTypes <;> simp [hmem]

/-- Witness for C4: updating with `buttonTypes = [confirm, cancel]` on a
state where all three buttons were hidden shows the confirm button. -/
theorem c4_update_button_visibility_witness :
    "confirm" ∈ validBtnNames
    ∧ (updateButtons ["confirm", "cancel"] (fun _ => true) "confirm" = false
        ↔ "confirm" ∈ ["confirm", "cancel"]) :=
  ⟨by decide,
   c4_update_button_visibility ["confirm", "cancel"] (fun _ => true)
     "confirm" (by decide)⟩

/-! ## One-shot confirm handlers (`ModalAlertMJ.update`, `_addHandler`,
`removeAllHandlers`) -/

/-- State of the confirm button's update-registered click handlers:
`handlers` is `this.confirmActionHandlers`, `listeners` the click
listeners attached to the confirm button through `_addHandler`.  The DOM
keeps at most one listener per distinct callback, so attaching is
deduplicating and detaching drops the single matching entry. -/
structure ConfirmHandlers (H : Type) where
  handlers : List H
  listeners : List H

/-- Embedding of `_addHandler`: `addEventListener` on the confirm button
followed by a push onto `confirmActionHandlers`. -/
def addHandler {H : Type} [DecidableEq H] (st : ConfirmHandlers H) (f : H) :
    ConfirmHandlers H :=
  { handlers := st.handlers ++ [f],
    listeners := if f ∈ st.listeners then st.listeners else st.listeners ++ [f] }

/-- Embedding of `removeAllHandlers`: `removeEventListener` for each
tracked handler, then clear the tracking list. -/
def removeAllHandlers {H : Type} [DecidableEq H] (st : ConfirmHandlers H) :
    ConfirmHandlers H :=
  { handlers := [],
    listeners := st.handlers.foldl (fun ls f => ls.erase f) st.listeners }

/-- Handler part of `ModalAlertMJ.update`: clear all previous handlers,
then register the supplied `confirmAction` exactly when it is a function
(`some`) and `buttonTypes` includes the confirm button. -/
def updateHandlers {H : Type} [DecidableEq H] (st : ConfirmHandlers H)
    (confirmAction : Option H) (buttonTypes : List String) : ConfirmHandlers H :=
  let cleared := removeAllHandlers st
  match confirmAction with
  | some f => if "confirm" ∈ buttonTypes then addHandler cleared f else cleared
  | none => cleared

theorem foldl_erase_self {H : Type} [DecidableEq H] (l : List H) :
    List.foldl (fun ls f => ls.erase f) l l = [] := by
  induction l with
  | nil => rfl
  | cons a t ih =>
    have hstep : List.foldl (fun ls f => ls.erase f) (a :: t) (a :: t)
        = List.foldl (fun ls f => ls.erase f) t t := by
      rw [List.foldl_cons]
      congr 1
      exact List.erase_cons_head a t
    rw [hstep, ih]

/-- C5: `ModalAlertMJ.update` first detaches every previously registered
confirm click handler; afterwards the tracked handler list (and the
attached update-registered listeners, which coincide with it) consists of
exactly the supplied `confirmAction` when that is a function and
`buttonTypes` includes `confirm`, and is empty otherwise, so at most one
update-registered handler is attached to the confirm button. -/
theorem c5_confirm_handlers_one_shot {H : Type} [DecidableEq H]
    (st : ConfirmHandlers H) (confirmAction : Option H)
    (buttonTypes : List String) (hinv : st.listeners = st.handlers) :
    (updateHandlers st confirmAction buttonTypes).listeners
        = (updateHandlers st confirmAction buttonTypes).handlers
    ∧ (updateHandlers st confirmAction buttonTypes).handlers
        = (match confirmAction with
           | some f => if "confirm" ∈ buttonTypes then [f] else []
           | none => [])
    ∧ (updateHandlers st confirmAction buttonTypes).handlers.length ≤ 1 := by
  have hclear : removeAllHandlers st = ⟨[], []⟩ := by
    unfold removeAllHandlers
    rw [hinv]
    rw [foldl_erase_self]
  cases confirmAction with
  | none => simp [updateHandlers, hclear]
  | some f =>
    by_cases hc : "confirm" ∈ buttonTypes
    · simp [updateHandlers, hclear, hc, addHandler]
    · simp [updateHandlers, hclear, hc]

/-- Witness for C5 with natural numbers as handlers: a previously
registered handler 5 is removed and the supplied handler 7 becomes the
only one. -/
theorem c5_confirm_handlers_one_shot_witness :
    (updateHandlers (H := Nat) ⟨[5], [5]⟩ (some 7) ["confirm"]).listeners
        = (updateHandlers (H := Nat) ⟨[5], [5]⟩ (some 7) ["confirm"]).handlers
    ∧ (updateHandlers (H := Nat) ⟨[5], [5]⟩ (some 7) ["confirm"]).handlers
        = (match some 7 with
           | some f => if "confirm" ∈ ["confirm"] then [f] else []
           | none => ([] : List Nat))
    ∧ (updateHandlers (H := Nat) ⟨[5], [5]⟩ (some 7) ["confirm"]).handlers.length ≤ 1 :=
  c5_confirm_handlers_one_shot ⟨[5], [5]⟩ (some 7) ["confirm"] rfl

/-! ## Datatable search filter (`DatatableMJ._initSearch`) -/

/-- Decidable substring test on character lists: true exactly when
`needle` occurs as a contiguous segment of `hay`. -/
def substrB (needle : List Char) : List Char → Bool
  | [] => needle.isEmpty
  | c :: t => needle.isPrefixOf (c :: t) || substrB needle t

/-- Case-insensitive containment used by the search handler, the
embedding of
`dataCell.textContent.toLowerCase().includes(searchText.toLowerCase())`. -/
def containsCI (cell needle : String) : Bool :=
  substrB (needle.data.map Char.toLower) (cell.data.map Char.toLower)

/-- Match computation for one table body row, `cells` being the text
contents of its `td[data-dbman-sn]` cells: the row matches when the
query is empty or some cell contains it case-insensitively. -/
def rowMatches (searchText : String) (cells : List String) : Bool :=
  (searchText = "") || cells.any (fun c => containsCI c searchText)

/-- State read and written by the search-button click handler. -/
structure SearchState where
  rowsHidden : List Bool
  curQuery : String
  noFilterHidden : Bool

/-- Embedding of the `searchBtn` click handler in
`DatatableMJ._initSearch`: when the input text differs from the stored
query, every body row's `d-none` class is recomputed from the match test
and the stored query is replaced by the input text; the no-filter button
is then hidden exactly when the stored query is empty. -/
def searchClick (rows : List (List String)) (st : SearchState)
    (searchText : String) : SearchState :=
  if searchText ≠ st.curQuery then
    { rowsHidden := rows.map (fun cells => !(rowMatches searchText cells)),
      curQuery := searchText,
      noFilterHidden := searchText = "" }
  else
    { st with noFilterHidden := st.curQuery = "" }

theorem substrB_iff (n h : List Char) : substrB n h = true ↔ n <:+: h := by
  induction h with
  | nil => cases n <;> simp [substrB, List.infix_nil]
  | cons c t ih =>
    simp [substrB, List.infix_cons_iff, ih, Bool.or_eq_true,
      List.isPrefixOf_iff_prefix]

/-- C6: a search-button click with input text differing from the stored
query recomputes each body row's visibility — a row is visible exactly
when the text is empty or some of its data cells contains it
case-insensitively — stores the text as the current query, and hides the
no-filter button exactly when the stored query is empty. -/
theorem c6_search_click (rows : List (List String)) (st : SearchState)
    (searchText : String) (hne : searchText ≠ st.curQuery) :
    (searchClick rows st searchText).curQuery = searchText
    ∧ (searchClick rows st searchText).noFilterHidden = decide (searchText = "")
    ∧ (searchClick rows st searchText).rowsHidden
        = rows.map (fun cells => !(rowMatches searchText cells))
    ∧ ∀ cells : List String,
        rowMatches searchText cells = true
          ↔ searchText = ""
            ∨ ∃ c ∈ cells, (searchText.data.map Char.toLower)
                <:+: (c.data.map Char.toLower) := by
  refine ⟨by simp [searchClick, hne], by simp [searchClick, hne],
    by simp [searchClick, hne], ?_⟩
  intro cells
  simp [rowMatches, containsCI, substrB_iff, List.any_eq_true]

/-- Witness for C6: searching for `li` in a two-row table with cells
`Alice` and `Bob` keeps the first row visible, hides the second, stores
the query and shows the no-filter button. -/
theorem c6_search_click_witness :
    (searchClick [["Alice"], ["Bob"]] ⟨[false, false], "", false⟩ "li").curQuery = "li"
    ∧ (searchClick [["Alice"], ["Bob"]] ⟨[false, false], "", false⟩ "li").noFilterHidden
        = decide (("li" : String) = "")
    ∧ (searchClick [["Alice"], ["Bob"]] ⟨[false, false], "", false⟩ "li").rowsHidden
        = [["Alice"], ["Bob"]].map (fun cells => !(rowMatches "li" cells)) :=
  ⟨(c6_search_click [["Alice"], ["Bob"]] ⟨[false, false], "", false⟩ "li"
      (by decide)).1,
   (c6_search_click [["Alice"], ["Bob"]] ⟨[false, false], "", false⟩ "li"
      (by decide)).2.1,
   (c6_search_click [["Alice"], ["Bob"]] ⟨[false, false], "", false⟩ "li"
      (by decide)).2.2.1⟩

/-! ## Container base class (`ContainerMJ`, `error-mj.js`, `utils-mj.js`) -/

/-- Thrown errors of the MJ widget classes: `instanceError tag` is the
`InstanceError` of `error-mj.js`, carrying a class name or a selector. -/
inductive MJError where
  | instanceError (tag : String)
deriving DecidableEq

/-- DOM-node identifiers. -/
abbrev Elem := Nat

/-- Embedding of `getElement` from `utils-mj.js` applied to a selector
string: resolve it against the document (the oracle `dom`), yielding the
matched element or null. -/
def getElement (dom : String → Option Elem) (sel : String) : Option Elem :=
  dom sel

/-- Embedding of `ContainerMJ._initArgs` for a selector argument: resolve
the container and throw an `InstanceError` carrying the constructor's
class name when no element matches. -/
def initArgsC (dom : String → Option Elem) (className container : String) :
    Except MJError Elem :=
  match getElement dom container with
  | none => .error (.instanceError className)
  | some e => .ok e

/-- Embedding of `ContainerMJ.getValidElement`: resolve the selector and
throw an `InstanceError` carrying the selector when nothing matches. -/
def getValidElement (dom : String → Option Elem) (sel : String) :
    Except MJError Elem :=
  match getElement dom sel with
  | none => .error (.instanceError sel)
  | some e => .ok e

/-- Embedding of `ContainerMJ.getValidElements` with the
`querySelectorAll` oracle `domAll`: an empty match list throws an
`InstanceError` carrying the selector. -/
def getValidElemList (domAll : String → List Elem) (sel : String) :
    Except MJError (List Elem) :=
  if (domAll sel).isEmpty then .error (.instanceError sel)
  else .ok (domAll sel)

/-- A `_findElements` phase that resolves each required selector through
`getValidElement`, stopping at the first failure. -/
def findElemsC (dom : String → Option Elem) :
    List String → Except MJError (List Elem)
  | [] => .ok []
  | s :: rest =>
    match getValidElement dom s with
    | .error er => .error er
    | .ok e =>
      match findElemsC dom rest with
      | .error er => .error er
      | .ok es => .ok (e :: es)

/-- Modelled from the spec: the `BaseMJ` constructor (its file is not
under `src/`) drives the fixed lifecycle `_initArgs → _findElements →
_initProperties → _initFunctions`, a thrown phase aborting construction.
Here the subclass construction resolves the container in `_initArgs` and
its required selectors in `_findElements`. -/
def constructC (dom : String → Option Elem) (className container : String)
    (sels : List String) : Except MJError (Elem × List Elem) :=
  match initArgsC dom className container with
  | .error er => .error er
  | .ok e =>
    match findElemsC dom sels with
    | .error er => .error er
    | .ok es => .ok (e, es)

theorem findElemsC_missing (dom : String → Option Elem) (sels : List String)
    (sel : String) (hmem : sel ∈ sels) (hnone : dom sel = none) :
    ∃ tag ∈ sels, findElemsC dom sels = .error (.instanceError tag) := by
  induction sels with
  | nil => cases hmem
  | cons s rest ih =>
    cases hds : dom s with
    | none =>
      exact ⟨s, List.mem_cons_self s rest, by
        simp [findElemsC, getValidElement, getElement, hds]⟩
    | some e =>
      have hsr : sel ∈ rest := by
        cases List.mem_cons.mp hmem with
        | inl h => exact absurd (h ▸ hds) (by simp [hnone])
        | inr h => exact h
      obtain ⟨tag, htag, herr⟩ := ih hsr
      exact ⟨tag, List.mem_cons_of_mem s htag, by
        simp [findElemsC, getValidElement, getElement, hds, herr]⟩

/-- C7: a required-but-missing DOM node makes construction throw rather
than complete: a container selector matching nothing yields an
`InstanceError` carrying the class name, `getValidElement` and
`getValidElements` on an unmatched selector yield an `InstanceError`
carrying the selector, and a missing `_findElements` selector aborts the
whole construction with an `InstanceError` carrying the class name or
one of the selectors — never a typed `ElementNotFound` result value. -/
theorem c7_missing_node_throws (dom : String → Option Elem)
    (domAll : String → List Elem) (cn container sel : String)
    (sels : List String) :
    (dom container = none →
        constructC dom cn container sels = .error (.instanceError cn))
    ∧ (dom sel = none →
        getValidElement dom sel = .error (.instanceError sel))
    ∧ (domAll sel = [] →
        getValidElemList domAll sel = .error (.instanceError sel))
    ∧ (sel ∈ sels → dom sel = none →
        ∃ tag, (tag = cn ∨ tag ∈ sels)
          ∧ constructC dom cn container sels = .error (.instanceError tag)) := by
  refine ⟨?_, ?_, ?_, ?_⟩
  · intro h
    simp [constructC, initArgsC, getElement, h]
  · intro h
    simp [getValidElement, getElement, h]
  · intro h
    simp [getValidElemList, h]
  · intro hmem hnone
    cases hc : dom container with
    | none =>
      exact ⟨cn, Or.inl rfl, by simp [constructC, initArgsC, getElement, hc]⟩
    | some e =>
      obtain ⟨tag, htag, herr⟩ := findElemsC_missing dom sels sel hmem hnone
      exact ⟨tag, Or.inr htag, by
        simp [constructC, initArgsC, getElement, hc, herr]⟩

/-- Witness for C7 on an empty document: every lookup misses, so the
constructions throw `InstanceError`s carrying the class name and the
selector. -/
theorem c7_missing_node_throws_witness :
    constructC (fun _ => none) "DatatableMJ" "#dbman-datatable-x" ["table"]
        = .error (.instanceError "DatatableMJ")
    ∧ getValidElement (fun _ => none) "table"
        = .error (.instanceError "table")
    ∧ getValidElemList (fun _ => []) "table"
        = .error (.instanceError "table") :=
  ⟨(c7_missing_node_throws (fun _ => none) (fun _ => []) "DatatableMJ"
      "#dbman-datatable-x" "table" ["table"]).1 rfl,
   (c7_missing_node_throws (fun _ => none) (fun _ => []) "DatatableMJ"
      "#dbman-datatable-x" "table" ["table"]).2.1 rfl,
   (c7_missing_node_throws (fun _ => none) (fun _ => []) "DatatableMJ"
      "#dbman-datatable-x" "table" ["table"]).2.2.1 rfl⟩

/-! ## Instance caching keyed by DOM node (`ContainerMJ.getInstance`,
`getOrCreateInstance`) -/

/-- Page state for the instance cache: `stored` is the
`__containerMJInstance` expando of each DOM node (a single slot per
node, so at most one cached instance per node by construction), and
`runs` counts constructor invocations — each run yields a fresh instance
identified by its run number. -/
structure InstanceCache where
  stored : Elem → Option Nat
  runs : Nat

/-- Embedding of a completed `ContainerMJ` subclass construction on the
element `e`: the constructor body runs once and `_initArgs` stores the
new instance on the element. -/
def constructOn (st : InstanceCache) (e : Elem) : Nat × InstanceCache :=
  (st.runs,
   { stored := fun x => if x = e then some st.runs else st.stored x,
     runs := st.runs + 1 })

/-- Embedding of `ContainerMJ.getInstance` on an element argument:
return the instance stored on the node, or null. -/
def getInstanceC (st : InstanceCache) (e : Elem) : Option Nat :=
  st.stored e

/-- Embedding of `ContainerMJ.getOrCreateInstance` on an element: return
the cached instance when the node holds one, otherwise run the
constructor. -/
def getOrCreateInstanceC (st : InstanceCache) (e : Elem) :
    Nat × InstanceCache :=
  match getInstanceC st e with
  | some i => (i, st)
  | none => constructOn st e

/-- C8: constructing on `e` stores the instance on `e`, so `getInstance`
afterwards returns exactly that instance, an element on which nothing
was constructed still yields null, and a later `getOrCreateInstance` on
`e` returns the same existing instance with the state unchanged — in
particular without running the constructor again. -/
theorem c8_instance_cache_idempotent (st : InstanceCache) (e e2 : Elem)
    (hne : e2 ≠ e) (hnone : st.stored e2 = none) :
    getInstanceC (constructOn st e).2 e = some (constructOn st e).1
    ∧ getInstanceC (constructOn st e).2 e2 = none
    ∧ getOrCreateInstanceC (constructOn st e).2 e
        = ((constructOn st e).1, (constructOn st e).2)
    ∧ ((getOrCreateInstanceC (constructOn st e).2 e).2).runs
        = (constructOn st e).2.runs := by
  refine ⟨?_, ?_, ?_, ?_⟩
  · simp [getInstanceC, constructOn]
  · simp [getInstanceC, constructOn, hne, hnone]
  · simp [getOrCreateInstanceC, getInstanceC, constructOn]
  · simp [getOrCreateInstanceC, getInstanceC, constructOn]

/-- Witness for C8 on an empty page: construct on node 0, then query
node 0 and the untouched node 1. -/
theorem c8_instance_cache_idempotent_witness :
    getInstanceC (constructOn ⟨fun _ => none, 0⟩ 0).2 0
        = some (constructOn ⟨fun _ => none, 0⟩ 0).1
    ∧ getInstanceC (constructOn ⟨fun _ => none, 0⟩ 0).2 1 = none
    ∧ getOrCreateInstanceC (constructOn ⟨fun _ => none, 0⟩ 0).2 0
        = ((constructOn ⟨fun _ => none, 0⟩ 0).1,
           (constructOn ⟨fun _ => none, 0⟩ 0).2) :=
  ⟨(c8_instance_cache_idempotent ⟨fun _ => none, 0⟩ 0 1 (by decide) rfl).1,
   (c8_instance_cache_idempotent ⟨fun _ => none, 0⟩ 0 1 (by decide) rfl).2.1,
   (c8_instance_cache_idempotent ⟨fun _ => none, 0⟩ 0 1 (by decide) rfl).2.2.1⟩

/-! ## Modal wrapper (`ModalMJ.show`, `ModalMJ.hide`, focus blur) -/

/-- Observable actions of the modal wrapper, listed in order of
occurrence. -/
inductive ModalAct where
  | blurActive
  | bsShow
  | bsHide
  | scheduleHide (ms : Nat)
deriving DecidableEq

/-- Embedding of `ModalMJ._blurFocus`: blur the active element exactly
when one exists and the modal container contains it. -/
def blurFocusActs (active : Option Elem) (containerHolds : Elem → Bool) :
    List ModalAct :=
  match active with
  | some a => if containerHolds a then [.blurActive] else []
  | none => []

/-- Embedding of `ModalMJ.show` (default `timeout = 0`): show the
third-party modal, then schedule a `hide` call after `timeout`
milliseconds when `timeout > 0`. -/
def showActs (timeout : Nat) : List ModalAct :=
  [.bsShow] ++ (if 0 < timeout then [.scheduleHide timeout] else [])

/-- Embedding of `ModalMJ.hide`: blur the focused element first, then
hide the third-party modal. -/
def hideActs (active : Option Elem) (containerHolds : Elem → Bool) :
    List ModalAct :=
  blurFocusActs active containerHolds ++ [.bsHide]

/-- Embedding of `_extraHandlerHide`, the handler `ModalMJ` installs on
the `hide.bs.modal` event: it blurs like `_blurFocus`. -/
def hideEventActs (active : Option Elem) (containerHolds : Elem → Bool) :
    List ModalAct :=
  blurFocusActs active containerHolds

/-- C9: `ModalMJ.show timeout` shows the underlying modal and schedules
an auto-hide exactly when `timeout > 0` (the default 0 schedules none);
`hide` blurs the focused element strictly before the modal is hidden
whenever that element lies inside the container, and the `hide.bs.modal`
handler performs the same blur. -/
theorem c9_modal_show_hide (timeout : Nat) (active : Option Elem)
    (ch : Elem → Bool) :
    ((∃ m, ModalAct.scheduleHide m ∈ showActs timeout) ↔ 0 < timeout)
    ∧ showActs 0 = [.bsShow]
    ∧ (showActs timeout).head? = some .bsShow
    ∧ (∀ a, active = some a → ch a = true →
        hideActs active ch = [.blurActive, .bsHide])
    ∧ (∀ a, active = some a → ch a = false → hideActs active ch = [.bsHide])
    ∧ (active = none → hideActs active ch = [.bsHide])
    ∧ hideEventActs active ch = blurFocusActs active ch := by
  refine ⟨?_, rfl, ?_, ?_, ?_, ?_, rfl⟩
  · constructor
    · rintro ⟨m, hm⟩
      by_cases ht : 0 < timeout
      · exact ht
      · simp [showActs, ht] at hm
    · intro ht
      exact ⟨timeout, by simp [showActs, ht]⟩
  · by_cases ht : 0 < timeout <;> simp [showActs, ht]
  · intro a ha hc
    subst ha
    simp [hideActs, blurFocusActs, hc]
  · intro a ha hc
    subst ha
    simp [hideActs, blurFocusActs, hc]
  · intro ha
    subst ha
    simp [hideActs, blurFocusActs]

/-- Witness for C9 at `timeout = 3` with element 2 focused inside the
container: the auto-hide is scheduled and `hide` blurs before hiding. -/
theorem c9_modal_show_hide_witness :
    ((∃ m, ModalAct.scheduleHide m ∈ showActs 3) ↔ 0 < 3)
    ∧ hideActs (some 2) (fun _ => true) = [.blurActive, .bsHide] :=
  ⟨(c9_modal_show_hide 3 (some 2) (fun _ => true)).1,
   (c9_modal_show_hide 3 (some 2) (fun _ => true)).2.2.2.1 2 rfl rfl⟩

/-! ## Form-modify dirty check and submit (`FormModifyMJ`) -/

/-- Alert messages routed through the alert modal by `_submit`. -/
inductive AlertMsg where
  | nochange
  | success
  | error
deriving DecidableEq

/-- Outcome of the POST of the form's action URL, when one is issued. -/
inductive FetchResp where
  | ok
  | notOk
  | netErr
deriving DecidableEq

/-- JS truthiness of an optional string (undefined, null and the empty
string are falsy). -/
def truthyS : Option String → Bool
  | some s => s ≠ ""
  | none => false

/-- Association-list lookup, the embedding of property access on a plain
JS object whose values are strings. -/
def lookupS (o : List (String × String)) (k : String) : Option String :=
  (o.find? (fun p => p.1 = k)).map (fun p => p.2)

/-- Embedding of `FormModifyMJ._dataModified`: keep each current form
entry whose value differs (strictly) from the original template data,
skipping pairs where both sides are falsy. -/
def dataModified (initialData currentData : List (String × String)) :
    List (String × String) :=
  currentData.filter (fun p =>
    (p.2 ≠ "" || truthyS (lookupS initialData p.1))
      && !(lookupS initialData p.1 = some p.2 : Bool))

/-- Embedding of `FormModifyMJ._submit` past the validity checks: `pks`
is the record's primary-key path segment (`_new` marks a record being
created), `initialData` the parsed `original_data` from the template,
`currentData` the form's entries at submit time, and `resp` the outcome
the POST would have.  Returns whether a POST is issued and which alert
is routed through the alert modal. -/
def submitFM (pks : String) (initialData currentData : List (String × String))
    (resp : FetchResp) : Bool × AlertMsg :=
  if pks ≠ "_new" ∧ (dataModified initialData currentData).isEmpty = true then
    (false, .nochange)
  else
    (true, match resp with
      | .ok => .success
      | .notOk => .error
      | .netErr => .error)

/-- Counterexample for C3: a submit of a new-record form (`pks` equal to
`_new`) whose form data does not differ at all from the original data
still issues the POST and never shows the `nochange` alert, against the
claim that a clean dirty-check always suppresses the POST. -/
theorem c3_submit_new_record_cex :
    (dataModified [("a", "1")] [("a", "1")]).isEmpty = true
    ∧ (submitFM "_new" [("a", "1")] [("a", "1")] .ok).1 = true
    ∧ (submitFM "_new" [("a", "1")] [("a", "1")] .ok).2 ≠ .nochange := by
  decide

/-- C3 amended: on a submit that passes validity checking, when the
record is pre-existing (`pks ≠ _new`) and the dirty-check against the
original data finds no changed entry, no POST is issued and the
`nochange` alert is shown; in every other case — any dirty entry, or a
new record regardless of changes — the form is POSTed, an ok response
routes to the `success` alert and a non-ok response or network error
routes to the `error` alert. -/
theorem c3_submit_routing (pks : String)
    (initialData currentData : List (String × String)) (resp : FetchResp) :
    (pks ≠ "_new" → (dataModified initialData currentData).isEmpty = true →
        submitFM pks initialData currentData resp = (false, .nochange))
    ∧ (pks = "_new" ∨ (dataModified initialData currentData).isEmpty = false →
        (submitFM pks initialData currentData resp).1 = true
        ∧ (submitFM pks initialData currentData resp).2
            = (match resp with
               | .ok => .success
               | .notOk => .error
               | .netErr => .error)) := by
  constructor
  · intro h1 h2
    simp [submitFM, h1, h2]
  · intro h
    have hcond : ¬ (pks ≠ "_new"
        ∧ (dataModified initialData currentData).isEmpty = true) := by
      rcases h with h | h
      · exact fun hc => hc.1 h
      · exact fun hc => by rw [h] at hc; exact Bool.false_ne_true hc.2
    unfold submitFM
    rw [if_neg hcond]
    exact ⟨rfl, rfl⟩

/-- Witness for C3 amended: an unchanged pre-existing record suppresses
the POST with the `nochange` alert, while a changed one is POSTed and a
non-ok response routes to the `error` alert. -/
theorem c3_submit_routing_witness :
    submitFM "5" [("a", "1")] [("a", "1")] .ok = (false, .nochange)
    ∧ (submitFM "5" [("a", "1")] [("a", "2")] .notOk).1 = true
    ∧ (submitFM "5" [("a", "1")] [("a", "2")] .notOk).2
        = (match FetchResp.notOk with
           | .ok => AlertMsg.success
           | .notOk => AlertMsg.error
           | .netErr => AlertMsg.error) :=
  ⟨(c3_submit_routing "5" [("a", "1")] [("a", "1")] .ok).1
      (by decide) (by decide),
   ((c3_submit_routing "5" [("a", "1")] [("a", "2")] .notOk).2
      (Or.inr (by decide))).1,
   ((c3_submit_routing "5" [("a", "1")] [("a", "2")] .notOk).2
      (Or.inr (by decide))).2⟩

/-! ## Datajson structure cache (`DatajsonMJ.getRenderStructure`) -/

/-- Result of one `getRenderStructure` call: the structure (`none` when
the instance has no type), or the `TypeError` thrown on a non-ok
response or null `data` member. -/
inductive RSResult (σ : Type) where
  | ok (s : Option σ)
  | typeErr
deriving DecidableEq

/-- Embedding of `getRenderStructure` as in `part_001` (lines 176–195)
and the second `datajson-mj.js` copy (lines 296–318), which consult and
fill the static structure cache shared by all instances: `server t` is
the parsed `data` member of a successful fetch of
`/api/datajson/structure/t` (`none` for a non-ok response or a null
`data`).  Returns the call's result, the updated cache and the number of
fetches this call issued. -/
def getRSCached {σ : Type} (server : String → Option σ)
    (cache : List (String × σ)) (ty : Option String) :
    RSResult σ × List (String × σ) × Nat :=
  match ty with
  | none => (.ok none, cache, 0)
  | some t =>
    match (cache.find? (fun p => p.1 = t)).map (fun p => p.2) with
    | some s => (.ok (some s), cache, 0)
    | none =>
      match server t with
      | some s => (.ok (some s), (t, s) :: cache, 1)
      | none => (.typeErr, cache, 1)

/-- Embedding of the first `datajson-mj.js` copy of `getRenderStructure`
(lines 52–67): no cache is consulted or filled, so every call with a
non-null type performs a fetch. -/
def getRSUncached {σ : Type} (server : String → Option σ)
    (ty : Option String) : RSResult σ × Nat :=
  match ty with
  | none => (.ok none, 0)
  | some t =>
    match server t with
    | some s => (.ok (some s), 1)
    | none => (.typeErr, 1)

/-- Counterexample for C2: under the first `datajson-mj.js`
implementation of `getRenderStructure`, a call for type `T` succeeds and
fetches, and — the function holding no cache at all — the identical
later call for `T` fetches again, so the schema is not fetched at most
once for the lifetime of the page. -/
theorem c2_uncached_refetches_cex :
    (getRSUncached (fun _ => some (0 : Nat)) (some "T")).1
        = .ok (some 0)
    ∧ (getRSUncached (fun _ => some (0 : Nat)) (some "T")).2 = 1
    ∧ (getRSUncached (fun _ => some (0 : Nat)) (some "T")).2
        + (getRSUncached (fun _ => some (0 : Nat)) (some "T")).2 = 2 := by
  decide

/-- C2 amended: in the `part_001` and second `datajson-mj.js`
implementations of `getRenderStructure`, which share the static
structure cache, the first successful call for a type fetches exactly
once and stores the structure, and every later call for that type
returns the cached structure without issuing a fetch; the first
`datajson-mj.js` implementation (lines 52–67) keeps no cache and fetches
on every call. -/
theorem c2_structure_fetched_once {σ : Type} (server : String → Option σ)
    (cache : List (String × σ)) (t : String) (s : σ)
    (hmiss : cache.find? (fun p => p.1 = t) = none)
    (hsrv : server t = some s) :
    getRSCached server cache (some t) = (.ok (some s), (t, s) :: cache, 1)
    ∧ getRSCached server ((t, s) :: cache) (some t)
        = (.ok (some s), (t, s) :: cache, 0)
    ∧ (∀ cache2 : List (String × σ),
        (cache2.find? (fun p => p.1 = t)).map (fun p => p.2) = some s →
          getRSCached server cache2 (some t) = (.ok (some s), cache2, 0))
    ∧ (getRSUncached server (some t)).2 = 1 := by
  refine ⟨?_, ?_, ?_, ?_⟩
  · simp [getRSCached, hmiss, hsrv]
  · simp [getRSCached]
  · intro cache2 hhit
    simp [getRSCached, hhit]
  · simp [getRSUncached, hsrv]

/-- Witness for C2 amended at a concrete server and empty cache. -/
theorem c2_structure_fetched_once_witness :
    getRSCached (fun _ => some (7 : Nat)) [] (some "T")
        = (.ok (some 7), [("T", 7)], 1)
    ∧ getRSCached (fun _ => some (7 : Nat)) [("T", 7)] (some "T")
        = (.ok (some 7), [("T", 7)], 0) :=
  ⟨(c2_structure_fetched_once (fun _ => some (7 : Nat)) [] "T" 7 rfl rfl).1,
   (c2_structure_fetched_once (fun _ => some (7 : Nat)) [] "T" 7 rfl rfl).2.1⟩

/-! ## Datajson record construction (`DatajsonMJ._load`) -/

/-- JS values stored in a datajson data object. -/
inductive JVal where
  | jstr (s : String)
  | jnull
deriving DecidableEq

/-- A JS data object as an association list. -/
abbrev JObj := List (String × JVal)

/-- Property access on a data object. -/
def lookupJ (o : JObj) (k : String) : Option JVal :=
  (o.find? (fun p => p.1 = k)).map (fun p => p.2)

/-- Embedding of `djData['__datajson_id__'] || null`: the tag carried by
a data object, with a missing, null or empty-string tag normalised to
null. -/
def tagOrNull (o : JObj) : Option String :=
  match lookupJ o "__datajson_id__" with
  | some (.jstr s) => if s = "" then none else some s
  | _ => none

/-- The `this.type` and `this.data` slots of a `DatajsonMJ` instance;
`data = none` models the slot never having been assigned. -/
structure DJState where
  type : Option String
  data : Option JObj
deriving DecidableEq

/-- JS truthiness of the `djType` argument (a string or null). -/
def truthyT : Option String → Bool
  | some s => s ≠ ""
  | none => false

/-- Value of the `djType` argument as stored into a fresh tag-only data
object `{ __datajson_id__: djType }` (spelling the braces out in Lean
record syntax). -/
def jvalOfType : Option String → JVal
  | some s => .jstr s
  | none => .jnull

/-- Embedding of `DatajsonMJ._load` from `datajson-mj.js` (lines 35–50),
with `djData` null or an object.  The returned Boolean records whether
an error (the `TypeError` thrown on a type mismatch) was caught by the
surrounding `try`/`catch` and logged; `_load` always returns the
post-catch state and never propagates the error to its caller.  The
non-empty branch assigns `this.type` only — `this.data` is left
untouched. -/
def loadDJ (st : DJState) (djType : Option String) (djData : Option JObj) :
    DJState × Bool :=
  match djData with
  | none =>
    ({ type := djType,
       data := some [("__datajson_id__", jvalOfType djType)] }, false)
  | some o =>
    if o.isEmpty then
      ({ type := djType,
         data := some [("__datajson_id__", jvalOfType djType)] }, false)
    else
      let dataType := tagOrNull o
      if truthyT djType ∧ djType ≠ dataType then
        ({ st with type := dataType }, true)
      else
        ({ st with type := dataType }, false)

/-- Update of one key of a data object, the embedding of
`dataObj[key] = kwargs[key]`. -/
def setKeyJ (o : JObj) (k : String) (v : JVal) : JObj :=
  if (o.find? (fun p => p.1 = k)).isSome then
    o.map (fun p => if p.1 = k then (k, v) else p)
  else o ++ [(k, v)]

/-- Merge of the explicit `kwargs` into a copy of the data object, as in
`part_001`'s `_load`. -/
def mergeJ (o : JObj) (kw : JObj) : JObj :=
  kw.foldl (fun acc p => setKeyJ acc p.1 p.2) o

/-- Embedding of `DatajsonMJ._load` from `part_001` (lines 147–174),
with `djData` null or an object (the string case parses to the same
object).  As above the Boolean records a caught-and-logged error: a type
mismatch after `this.type` was assigned, or the `TypeError` from writing
`kwargs` onto a null `dataObj`.  Only the mismatch-free branch stores
the merged data object. -/
def loadDJP1 (st : DJState) (djType : Option String) (djData : Option JObj)
    (kwargs : JObj) : DJState × Bool :=
  match djData with
  | none =>
    if kwargs.isEmpty then
      ({ type := djType,
         data := some [("__datajson_id__", jvalOfType djType)] }, false)
    else (st, true)
  | some o =>
    let dataObj := mergeJ o kwargs
    if o.isEmpty then
      ({ type := djType,
         data := some [("__datajson_id__", jvalOfType djType)] }, false)
    else
      let dataType := tagOrNull dataObj
      if truthyT djType ∧ djType ≠ dataType then
        ({ st with type := dataType }, true)
      else
        ({ type := dataType, data := some dataObj }, false)

/-- Counterexample for C1, against the `datajson-mj.js` `_load` (the
claim's first cited implementation): constructing a fresh record under
`djType` `A` with the non-empty, perfectly consistent data object
`{ __datajson_id__: A }` leaves `this.data` unassigned, so the resulting
record carries no tag field equal to its construction type at all; and
on a mismatching data object tagged `B` the `TypeError` is caught and
logged inside `_load` (second component `true`), which still returns the
partially updated state — no type error surfaces to the caller. -/
theorem c1_tag_invariant_cex :
    (loadDJ ⟨none, none⟩ (some "A")
        (some [("__datajson_id__", JVal.jstr "A")])).1.type = some "A"
    ∧ (loadDJ ⟨none, none⟩ (some "A")
        (some [("__datajson_id__", JVal.jstr "A")])).1.data = none
    ∧ (loadDJ ⟨none, none⟩ (some "A")
        (some [("__datajson_id__", JVal.jstr "B")])).2 = true
    ∧ (loadDJ ⟨none, none⟩ (some "A")
        (some [("__datajson_id__", JVal.jstr "B")])).1
        = ⟨some "B", none⟩ := by
  decide

/-- C1 amended: for a non-empty data object, `_load` sets the record's
type to the tag carried in the data (missing or falsy tags normalised to
null); in the `part_001` implementation the data object is stored
exactly when no mismatch is logged, and then the stored data's tag
equals the constructed type, while the `datajson-mj.js` implementation
never stores the data object; a mismatch between a truthy `djType` and
the carried tag raises a `TypeError` that the `try`/`catch` inside
`_load` swallows after logging — it is silently ignored from the
caller's view, with the type slot already overwritten. -/
theorem c1_load_tag (st : DJState) (djType : Option String) (o : JObj)
    (h : o.isEmpty = false) :
    ((loadDJP1 st djType (some o) []).2 = true
        ↔ truthyT djType = true ∧ djType ≠ tagOrNull o)
    ∧ ((loadDJP1 st djType (some o) []).2 = false →
        (loadDJP1 st djType (some o) []).1.data = some o
        ∧ (loadDJP1 st djType (some o) []).1.type = tagOrNull o
        ∧ Option.map tagOrNull (loadDJP1 st djType (some o) []).1.data
            = some (loadDJP1 st djType (some o) []).1.type)
    ∧ ((loadDJP1 st djType (some o) []).2 = true →
        (loadDJP1 st djType (some o) []).1.data = st.data
        ∧ (loadDJP1 st djType (some o) []).1.type = tagOrNull o)
    ∧ (loadDJ st djType (some o)).1.data = st.data
    ∧ (loadDJ st djType (some o)).1.type = tagOrNull o
    ∧ ((loadDJ st djType (some o)).2 = true
        ↔ truthyT djType = true ∧ djType ≠ tagOrNull o) := by
  have hmerge : mergeJ o [] = o := rfl
  by_cases hc : truthyT djType = true ∧ djType ≠ tagOrNull o
  · refine ⟨?_, ?_, ?_, ?_, ?_, ?_⟩
    · simp [loadDJP1, hmerge, h, hc]
    · intro hfalse
      exact absurd hfalse (by simp [loadDJP1, hmerge, h, hc])
    · intro _
      constructor
      · simp [loadDJP1, hmerge, h, hc]
      · simp [loadDJP1, hmerge, h, hc]
    · simp [loadDJ, h, hc]
    · simp [loadDJ, h, hc]
    · simp [loadDJ, h, hc]
  · refine ⟨?_, ?_, ?_, ?_, ?_, ?_⟩
    · simp [loadDJP1, hmerge, h, hc]
    · intro _
      refine ⟨?_, ?_, ?_⟩
      · simp [loadDJP1, hmerge, h, hc]
      · simp [loadDJP1, hmerge, h, hc]
      · simp [loadDJP1, hmerge, h, hc]
    · intro htrue
      exact absurd htrue (by simp [loadDJP1, hmerge, h, hc])
    · simp [loadDJ, h, hc]
    · simp [loadDJ, h, hc]
    · simp [loadDJ, h, hc]

/-- Witness for C1 amended at a mismatch-free load of a tagged object:
`part_001`'s `_load` stores the data and the stored tag equals the
constructed type. -/
theorem c1_load_tag_witness :
    (loadDJP1 ⟨none, none⟩ (some "A")
        (some [("__datajson_id__", JVal.jstr "A")]) []).1.data
      = some [("__datajson_id__", JVal.jstr "A")]
    ∧ (loadDJP1 ⟨none, none⟩ (some "A")
        (some [("__datajson_id__", JVal.jstr "A")]) []).1.type
      = tagOrNull [("__datajson_id__", JVal.jstr "A")] :=
  ⟨((c1_load_tag ⟨none, none⟩ (some "A")
      [("__datajson_id__", JVal.jstr "A")] (by decide)).2.1 (by decide)).1,
   ((c1_load_tag ⟨none, none⟩ (some "A")
      [("__datajson_id__", JVal.jstr "A")] (by decide)).2.1 (by decide)).2.1⟩

end DBMan
